import Mathlib

/-!
Verification development for the AMLA AT2 weather-prediction HTTP API
(`app/main.py`).  The service wraps two opaque model artifacts behind two
prediction endpoints, a health endpoint and a descriptor endpoint.  This file
gives a shallow embedding of the request-level logic: date parsing
(`datetime.strptime(s, "%Y-%m-%d")`), date arithmetic (`timedelta` addition
with the Python `datetime` year range 1..9999), feature-frame construction,
startup model loading, and the two handlers, and proves the behavioural
properties of the API against that embedding.

Modelling conventions:
* Python `datetime` values are `PyDateTime` (a calendar date plus a
  seconds-of-day component; the format `"%Y-%m-%d"` never produces a nonzero
  time, and `build_features_for_date` drops it via `d.date()`).
* `datetime + timedelta(days=n)` is `addDays`, iterated calendar successor;
  it returns `none` when the result would pass `datetime.max` (year 9999),
  where Python raises `OverflowError`.
* The opaque model artifacts are records with a `predict` operation taking
  the single-row frame to either a single numeric output (real numbers are
  modelled as rationals) or an exception message, matching the specified
  "single-row-in / single-value-out" black-box contract.
* A handler outcome is `Response`: a 200 JSON body, a raised
  `HTTPException` (`httpError status detail`), or an exception escaping the
  handler (`unhandled`), which the serving runtime turns into a bare 500.
-/

namespace AmlaApi

/-! ## Calendar dates (Python `datetime.date` component) -/

/-- A proleptic Gregorian calendar date, as carried by Python `datetime`. -/
structure Date where
  year : Nat
  month : Nat
  day : Nat
deriving DecidableEq, Repr

/-- Gregorian leap-year rule (as in the Python function `calendar.isleap`). -/
def isLeap (y : Nat) : Bool :=
  (y % 4 == 0 && y % 100 != 0) || y % 400 == 0

/-- Number of days in month `m` of year `y`. -/
def daysInMonth (y m : Nat) : Nat :=
  if m = 2 then (if isLeap y then 29 else 28)
  else if m = 4 ∨ m = 6 ∨ m = 9 ∨ m = 11 then 30
  else 31

/-- The dates representable by Python `datetime`: real calendar dates with
`datetime.MINYEAR = 1 ≤ year ≤ 9999 = datetime.MAXYEAR`. -/
def validDate (y m d : Nat) : Prop :=
  1 ≤ y ∧ y ≤ 9999 ∧ 1 ≤ m ∧ m ≤ 12 ∧ 1 ≤ d ∧ d ≤ daysInMonth y m

instance (y m d : Nat) : Decidable (validDate y m d) := by
  unfold validDate; infer_instance

/-- A Python `datetime`: a calendar date plus a time-of-day component
(collapsed to seconds; only "is it midnight" matters to this API). -/
structure PyDateTime where
  date : Date
  secondsOfDay : Nat
deriving DecidableEq, Repr

/-- Calendar successor, `none` past 9999-12-31, the date of `datetime.max`
(Python raises `OverflowError: date value out of range` there). -/
def nextDay (x : Date) : Option Date :=
  if x.day < daysInMonth x.year x.month then some ⟨x.year, x.month, x.day + 1⟩
  else if x.month < 12 then some ⟨x.year, x.month + 1, 1⟩
  else if x.year < 9999 then some ⟨x.year + 1, 1, 1⟩
  else none

/-- `n`-fold calendar successor on dates. -/
def Date.addDays : Date → Nat → Option Date
  | x, 0 => some x
  | x, n + 1 => (nextDay x).bind (fun y => Date.addDays y n)

/-- `dt + timedelta(days=n)` on Python datetimes: shifts the calendar date,
keeps the time of day, `none` on `OverflowError`. -/
def addDays (t : PyDateTime) (n : Nat) : Option PyDateTime :=
  (Date.addDays t.date n).map (fun d => ⟨d, t.secondsOfDay⟩)

/-- Zero-pad a decimal rendering to (at least) two digits. -/
def pad2 (n : Nat) : String :=
  if n < 10 then "0" ++ toString n else toString n

/-- Zero-pad a decimal rendering to (at least) four digits. -/
def pad4 (n : Nat) : String :=
  if n < 10 then "000" ++ toString n
  else if n < 100 then "00" ++ toString n
  else if n < 1000 then "0" ++ toString n
  else toString n

/-- `dt.strftime("%Y-%m-%d")`: zero-padded `YYYY-MM-DD` rendering of the
date component. -/
def strftimeYMD (t : PyDateTime) : String :=
  pad4 t.date.year ++ "-" ++ pad2 t.date.month ++ "-" ++ pad2 t.date.day

/-! ## `parse_date`: `datetime.strptime(date_str, "%Y-%m-%d")`

The CPython module `_strptime` compiles the format into the anchored regex
`(\d\d\d\d)-(1[0-2]|0[1-9]|[1-9])-(3[01]|[12]\d|0[1-9]|[1-9]| [1-9])` and
requires it to consume the whole string, then builds `datetime(y, m, d)`
(which rejects non-existent calendar dates with `ValueError`).  Note the
month and day fields accept one- or two-digit values, so zero padding is
optional, and the day field additionally accepts a space-padded single
digit (the trailing ` [1-9]` alternative, kept for ANSI C `%c`
compatibility).

Modelling scope: the embedding covers input strings over the ASCII
alphabet.  Where the CPython pattern uses `\d` (the four year characters
and the second character of a `[12]\d` day token) the real parser, being
Unicode-aware, also matches non-ASCII decimal digits, and `int()` converts
them; the parser facts below are therefore stated for ASCII inputs, on
which `Char.isDigit` coincides with `\d`. -/

/-- Decimal value of a digit character. -/
def digitVal (c : Char) : Nat := c.toNat - 48

/-- ASCII characters (code point below 128); the fragment of the input
alphabet on which the embedded parser is exact. -/
def isAsciiChar (c : Char) : Bool := decide (c.toNat < 128)

/-- All characters of the token are ASCII digits. -/
def allDigits (t : List Char) : Bool := t.all Char.isDigit

/-- Decimal value of a digit token. -/
def tokVal (t : List Char) : Nat := t.foldl (fun a c => 10 * a + digitVal c) 0

/-- The CPython `%d` day field, `3[01]|[12]\d|0[1-9]|[1-9]| [1-9]`: one or
two digits, or a space followed by a digit, returning the digit characters
of the token (`int` ignores the leading space).  Values the regex
alternatives exclude (`0`, `00`, ` 0` and two-digit values above 31) are
equivalently rejected by the later calendar-validity check, which requires
`1 ≤ day ≤ 31`. -/
def dayDigits (t : List Char) : Option (List Char) :=
  match t with
  | [u, v] =>
      if u = ' ' then (if v.isDigit then some [v] else none)
      else if allDigits [u, v] then some [u, v] else none
  | t => if allDigits t then some t else none

/-- Assemble the matched year/month/day tokens into a datetime at midnight:
digit checks for the year and month fields, the day field read through
`dayDigits`, then `datetime(y, m, d)` validity. -/
def mkParsed (yt mt dt : List Char) : Option PyDateTime :=
  match dayDigits dt with
  | none => none
  | some dd =>
    if allDigits yt && allDigits mt then
      if validDate (tokVal yt) (tokVal mt) (tokVal dd) then
        some ⟨⟨tokVal yt, tokVal mt, tokVal dd⟩, 0⟩
      else none
    else none

/-- The strptime match on the character list: four year digits, a hyphen, a
one- or two-digit month, a hyphen, a one- or two-character day token, end
of input.  The length-9 case decides between a one-digit month (hyphen at
index 6) and a two-digit month (hyphen at index 7); when both indices hold
hyphens the day token would contain the hyphen and fit no day-token
alternative, exactly as the regex rejects such strings. -/
def parseChars : List Char → Option PyDateTime
  | [y1, y2, y3, y4, h1, m1, h2, d1] =>
      if h1 = '-' ∧ h2 = '-' then mkParsed [y1, y2, y3, y4] [m1] [d1] else none
  | [y1, y2, y3, y4, h1, c5, c6, c7, c8] =>
      if h1 = '-' then
        if c6 = '-' then mkParsed [y1, y2, y3, y4] [c5] [c7, c8]
        else if c7 = '-' then mkParsed [y1, y2, y3, y4] [c5, c6] [c8]
        else none
      else none
  | [y1, y2, y3, y4, h1, m1, m2, h2, d1, d2] =>
      if h1 = '-' ∧ h2 = '-' then mkParsed [y1, y2, y3, y4] [m1, m2] [d1, d2]
      else none
  | _ => none

/-- `parse_date` from `app/main.py`: `datetime.strptime(date_str, "%Y-%m-%d")`,
`none` where Python raises `ValueError` (translated by the handler into an
HTTP 400). -/
def parse_date (s : String) : Option PyDateTime := parseChars s.data

/-! ## Feature frame and model artifacts -/

/-- A pandas `DataFrame`, column-oriented: column names paired with column
values (timestamps here).  `build_features_for_date` only ever builds
one-column frames. -/
abbrev Frame := List (String × List PyDateTime)

/-- `build_features_for_date` from `app/main.py`:
`pd.DataFrame({"date": [pd.to_datetime(d.date())]})` — a single-row,
single-column frame holding the calendar date at midnight (`d.date()` drops
the time of day). -/
def build_features_for_date (d : PyDateTime) : Frame :=
  [("date", [⟨d.date, 0⟩])]

/-- An opaque model artifact: a black box whose `predict` takes the frame to
a single numeric output value (`.ok`) or raises (`.error msg`).  Reals are
modelled as rationals. -/
structure Model where
  predict : Frame → Except String ℚ

/-- Module-level state after startup: `rain_clf`, `precip_reg`,
`load_error_msg` from `app/main.py`. -/
structure ServerState where
  rain_clf : Option Model
  precip_reg : Option Model
  load_error_msg : Option String

/-- `_load_model` from `app/main.py`: raises `FileNotFoundError` (as
`.error`) when the path does not exist, otherwise returns the deserialized
artifact.  `fileAt` says whether the path references an existing file and
`m` is the artifact `joblib.load` would produce there. -/
def _load_model (fileAt : Bool) (path : String) (m : Model) : Except String Model :=
  if fileAt then Except.ok m else Except.error ("Model file not found: " ++ path)

/-- The module-level `try/except FileNotFoundError/else` around the two
`_load_model` calls: the first failure aborts the block, leaving *both*
artifacts `None` and recording the message of that failure; only if both loads
succeed are both artifacts set and `load_error_msg = None`. -/
def startup (rainAt precipAt : Bool) (rainPath precipPath : String)
    (rainM precipM : Model) : ServerState :=
  match _load_model rainAt rainPath rainM with
  | Except.error e => ⟨none, none, some e⟩
  | Except.ok rc =>
    match _load_model precipAt precipPath precipM with
    | Except.error e => ⟨none, none, some e⟩
    | Except.ok pr => ⟨some rc, some pr, none⟩

/-! ## Responses and handlers -/

/-- Python truthiness of an optional string (`if load_error_msg:`). -/
def pyTruthy : Option String → Bool
  | none => false
  | some s => decide (s ≠ "")

/-- Python `load_error_msg or ''`. -/
def pyOrEmpty : Option String → String
  | none => ""
  | some s => s

/-- Outcome of one request: a 200 JSON body, a raised
`HTTPException(status, detail)`, or an exception escaping the handler
(surfaced by the runtime as a bare 500). -/
inductive Response (β : Type) where
  | ok (body : β)
  | httpError (status : Nat) (detail : String)
  | unhandled (message : String)
deriving DecidableEq

/-- JSON body of a successful `/predict/rain/` response. -/
structure RainBody where
  input_date : String
  date : String
  will_rain : Bool
deriving DecidableEq, Repr

/-- JSON body of a successful `/predict/precipitation/fall/` response. -/
structure PrecipBody where
  input_date : String
  start_date : String
  end_date : String
  precipitation_fall : String
deriving DecidableEq, Repr

/-- `health_check` from `app/main.py` (`GET /health/`, `status_code=200`):
status paired with the body string. -/
def health_check (st : ServerState) : Nat × String :=
  if pyTruthy st.load_error_msg then
    (200, "Startup warning: " ++ pyOrEmpty st.load_error_msg)
  else
    (200, "API is ready. Models loaded.")

/-- Detail string of the HTTP 400 raised by `parse_date`. -/
def invalidDateDetail : String := "Invalid date format. Expected YYYY-MM-DD."

/-- Message of the Python `OverflowError` on date arithmetic. -/
def overflowMsg : String := "date value out of range"

/-- `predict_rain` from `app/main.py` (`GET /predict/rain/`), step by step:
model-availability check, `parse_date`, `d0 + timedelta(days=7)`,
`build_features_for_date(d0)`, `rain_clf.predict`, `bool(pred[0])`
(truthiness of the single output value), response assembly. -/
def predict_rain (st : ServerState) (date : String) : Response RainBody :=
  match st.rain_clf with
  | none =>
      Response.httpError 500 ("Rain model not loaded. " ++ pyOrEmpty st.load_error_msg)
  | some clf =>
    match parse_date date with
    | none => Response.httpError 400 invalidDateDetail
    | some d0 =>
      match addDays d0 7 with
      | none => Response.unhandled overflowMsg
      | some d7 =>
        match clf.predict (build_features_for_date d0) with
        | Except.error e => Response.httpError 500 ("Inference error (rain): " ++ e)
        | Except.ok pred =>
            Response.ok
              { input_date := strftimeYMD d0
                date := strftimeYMD d7
                will_rain := decide (pred ≠ 0) }

/-- Round-half-even of `q * 10`, the integer of tenths printed by `%.1f`,
computed on the numerator and (positive) denominator: `q * 10 = 10n/d`
floors to `(10n).fdiv d` with remainder `r/d`, and `r/d` compares to `1/2`
as `2r` compares to `d`. -/
def roundTenths (q : ℚ) : ℤ :=
  let fl : ℤ := (10 * q.num).fdiv q.den
  let r : ℤ := 10 * q.num - fl * q.den
  if 2 * r > (q.den : ℤ) then fl + 1
  else if 2 * r < (q.den : ℤ) then fl
  else if fl % 2 = 0 then fl else fl + 1

/-- Python `f"{y_hat:.1f}"` on the (exact) value `q`: round to the nearest
tenth (ties to even) and print with exactly one digit after the decimal
point, with the Python sign convention (negative values rounding to zero
print as `-0.0`). -/
def formatFixed1 (q : ℚ) : String :=
  (if roundTenths q < 0 ∨ (roundTenths q = 0 ∧ q.num < 0) then "-" else "") ++
    toString ((roundTenths q).natAbs / 10) ++ "." ++
    toString ((roundTenths q).natAbs % 10)

/-- `predict_precipitation_fall` from `app/main.py`
(`GET /predict/precipitation/fall/`): model-availability check,
`parse_date`, `start_date = d0 + timedelta(days=1)`,
`end_date = d0 + timedelta(days=3)`, `build_features_for_date(d0)`,
`float(precip_reg.predict(X)[0])`, `f"{y_hat:.1f}"`, response assembly. -/
def predict_precipitation_fall (st : ServerState) (date : String) :
    Response PrecipBody :=
  match st.precip_reg with
  | none =>
      Response.httpError 500
        ("Precipitation model not loaded. " ++ pyOrEmpty st.load_error_msg)
  | some reg =>
    match parse_date date with
    | none => Response.httpError 400 invalidDateDetail
    | some d0 =>
      match addDays d0 1, addDays d0 3 with
      | some s1, some e3 =>
        match reg.predict (build_features_for_date d0) with
        | Except.error e =>
            Response.httpError 500 ("Inference error (precipitation): " ++ e)
        | Except.ok y =>
            Response.ok
              { input_date := strftimeYMD d0
                start_date := strftimeYMD s1
                end_date := strftimeYMD e3
                precipitation_fall := formatFixed1 y }
      | _, _ => Response.unhandled overflowMsg

/-- A model whose `predict` always succeeds with output `q`. -/
def constModel (q : ℚ) : Model := ⟨fun _ => Except.ok q⟩

/-- A fully-loaded server state with always-succeeding artifacts. -/
def readyState : ServerState :=
  ⟨some (constModel 1), some (constModel 1), none⟩

/-! ## Spec-side characterisations of the accepted date strings -/

/-- From the wording of the spec: the strings matching the zero-padded pattern
`YYYY-MM-DD` (four-digit year, two-digit month, two-digit day,
hyphen-separated) that denote a real calendar date. -/
def specExactFormat (s : String) : Bool :=
  match s.data with
  | [y1, y2, y3, y4, '-', m1, m2, '-', d1, d2] =>
      allDigits [y1, y2, y3, y4] && allDigits [m1, m2] && allDigits [d1, d2] &&
        decide (validDate (tokVal [y1, y2, y3, y4]) (tokVal [m1, m2]) (tokVal [d1, d2]))
  | _ => false

/-- The amended acceptance set, stated declaratively: a four-digit year
token, a one- or two-digit month token (zero padding optional) and a day
token that is either one or two digits (zero padding optional) or a space
followed by a digit, hyphen-separated with nothing else, denoting a real
calendar date of the supported year range.  `dd` is the digit part of the
day token. -/
def lenientAccept (s : String) : Prop :=
  ∃ yt mt dt dd : List Char,
    s.data = yt ++ '-' :: (mt ++ '-' :: dt) ∧
    yt.length = 4 ∧
    (mt.length = 1 ∨ mt.length = 2) ∧
    allDigits yt = true ∧ allDigits mt = true ∧
    ((dt = dd ∧ (dd.length = 1 ∨ dd.length = 2) ∧ allDigits dd = true) ∨
      (∃ c, dt = [' ', c] ∧ dd = [c] ∧ c.isDigit = true)) ∧
    validDate (tokVal yt) (tokVal mt) (tokVal dd)

/-! ## Helper lemmas -/

theorem append_ne_empty_left (a b : String) (h : a.data ≠ []) : a ++ b ≠ "" := by
  intro hc
  have hd := congrArg String.data hc
  rw [String.data_append] at hd
  exact h (List.append_eq_nil.mp hd).1

theorem modelMsg_ne_empty (p : String) : "Model file not found: " ++ p ≠ "" := by
  apply append_ne_empty_left
  decide

theorem warning_ne_ready (e : String) :
    "Startup warning: " ++ e ≠ "API is ready. Models loaded." := by
  intro hc
  have hd := congrArg String.data hc
  rw [String.data_append] at hd
  have hS : ('S' : Char) = 'A' := congrArg List.headI hd
  exact absurd hS (by decide)

/-- The startup error message, when present, names the first missing file:
the classifier path if the classifier file is missing, else the regressor
path. -/
theorem startup_msg_form (rainAt precipAt : Bool) (rainPath precipPath : String)
    (rainM precipM : Model) (e : String)
    (hm : (startup rainAt precipAt rainPath precipPath rainM precipM).load_error_msg
      = some e) :
    e = "Model file not found: " ++ rainPath ∨
      e = "Model file not found: " ++ precipPath := by
  cases rainAt <;> cases precipAt <;>
    simp only [startup, _load_model, Bool.false_eq_true, if_false, if_true,
      Option.some.injEq, reduceCtorEq] at hm <;>
    simp [← hm]

theorem health_check_of_none (st : ServerState) (hm : st.load_error_msg = none) :
    health_check st = (200, "API is ready. Models loaded.") := by
  simp [health_check, hm, pyTruthy]

theorem health_check_of_msg (st : ServerState) (e : String)
    (hm : st.load_error_msg = some e) (he : e ≠ "") :
    health_check st = (200, "Startup warning: " ++ e) := by
  simp [health_check, hm, pyTruthy, pyOrEmpty, he]

theorem predict_rain_of_none (st : ServerState) (date : String)
    (h : st.rain_clf = none) :
    predict_rain st date =
      Response.httpError 500 ("Rain model not loaded. " ++ pyOrEmpty st.load_error_msg) := by
  simp only [predict_rain, h]

theorem ne_hyphen_of_isDigit {c : Char} (h : c.isDigit = true) : c ≠ '-' := by
  intro hc
  subst hc
  exact absurd h (by decide)

theorem length_eq_four {α : Type} {l : List α} (h : l.length = 4) :
    ∃ a b c d, l = [a, b, c, d] := by
  rcases l with - | ⟨a, - | ⟨b, - | ⟨c, - | ⟨d, - | ⟨e, t⟩⟩⟩⟩⟩ <;>
    simp only [List.length_nil, List.length_cons] at h <;> try omega
  exact ⟨a, b, c, d, rfl⟩

theorem ne_space_of_isDigit {c : Char} (h : c.isDigit = true) : c ≠ ' ' := by
  intro hc
  subst hc
  exact absurd h (by decide)

theorem dayDigits_eq_some {dt dd : List Char} (h : dayDigits dt = some dd) :
    (dt = dd ∧ allDigits dd = true) ∨
      ∃ c, dt = [' ', c] ∧ dd = [c] ∧ c.isDigit = true := by
  unfold dayDigits at h
  split at h
  · rename_i u v
    by_cases hu : u = ' '
    · rw [if_pos hu] at h
      by_cases hv : v.isDigit = true
      · rw [if_pos hv] at h
        injection h with h
        subst hu
        exact Or.inr ⟨v, rfl, h.symm, hv⟩
      · rw [if_neg hv] at h
        exact Option.noConfusion h
    · rw [if_neg hu] at h
      by_cases hall : allDigits [u, v] = true
      · rw [if_pos hall] at h
        injection h with h
        subst h
        exact Or.inl ⟨rfl, hall⟩
      · rw [if_neg hall] at h
        exact Option.noConfusion h
  · by_cases hall : allDigits dt = true
    · rw [if_pos hall] at h
      injection h with h
      subst h
      exact Or.inl ⟨rfl, hall⟩
    · rw [if_neg hall] at h
      exact Option.noConfusion h

theorem dayDigits_digits {t : List Char} (h1 : t.length = 1 ∨ t.length = 2)
    (h : allDigits t = true) : dayDigits t = some t := by
  rcases h1 with h1 | h1
  · obtain ⟨c, rfl⟩ := List.length_eq_one.mp h1
    simp [dayDigits, h]
  · obtain ⟨u, v, rfl⟩ := List.length_eq_two.mp h1
    have hu : u.isDigit = true := by
      simp only [allDigits, List.all_cons, List.all_nil, Bool.and_eq_true] at h
      exact h.1
    simp [dayDigits, ne_space_of_isDigit hu, h]

theorem dayDigits_space {c : Char} (h : c.isDigit = true) :
    dayDigits [' ', c] = some [c] := by
  simp [dayDigits, h]

theorem mkParsed_isSome (yt mt dt : List Char) :
    (mkParsed yt mt dt).isSome = true ↔
      ∃ dd, dayDigits dt = some dd ∧ allDigits yt = true ∧ allDigits mt = true ∧
        validDate (tokVal yt) (tokVal mt) (tokVal dd) := by
  unfold mkParsed
  split
  · rename_i hdd
    rw [hdd]
    simp
  · rename_i dd hdd
    rw [hdd]
    split_ifs with h1 h2
    · simp only [Bool.and_eq_true] at h1
      exact ⟨fun _ => ⟨dd, rfl, h1.1, h1.2, h2⟩, fun _ => rfl⟩
    · refine ⟨fun hcontra => absurd hcontra (by simp), ?_⟩
      rintro ⟨dd2, hdd2, -, -, hv⟩
      injection hdd2 with hdd2
      subst hdd2
      exact absurd hv h2
    · refine ⟨fun hcontra => absurd hcontra (by simp), ?_⟩
      rintro ⟨dd2, hdd2, ha, hb, -⟩
      exact absurd (by simp [ha, hb] :
        (allDigits yt && allDigits mt) = true) h1

/-- The day-token shape of the amended acceptance set: either the token is
its own digit part (one or two digits), or it is a space-padded digit. -/
theorem mkParsed_isSome_inv {yt mt dt : List Char}
    (h : (mkParsed yt mt dt).isSome = true)
    (hlen : dt.length = 1 ∨ dt.length = 2) :
    allDigits yt = true ∧ allDigits mt = true ∧
    ∃ dd, ((dt = dd ∧ (dd.length = 1 ∨ dd.length = 2) ∧ allDigits dd = true) ∨
        (∃ c, dt = [' ', c] ∧ dd = [c] ∧ c.isDigit = true)) ∧
      validDate (tokVal yt) (tokVal mt) (tokVal dd) := by
  rw [mkParsed_isSome] at h
  obtain ⟨dd, hdd, ha, hb, hv⟩ := h
  refine ⟨ha, hb, dd, ?_, hv⟩
  rcases dayDigits_eq_some hdd with ⟨hdteq, hdig⟩ | hsp
  · exact Or.inl ⟨hdteq, hdteq ▸ hlen, hdig⟩
  · exact Or.inr hsp

theorem mkParsed_isSome_of {yt mt dt dd : List Char}
    (ha : allDigits yt = true) (hb : allDigits mt = true)
    (hshape : (dt = dd ∧ (dd.length = 1 ∨ dd.length = 2) ∧ allDigits dd = true) ∨
      (∃ c, dt = [' ', c] ∧ dd = [c] ∧ c.isDigit = true))
    (hv : validDate (tokVal yt) (tokVal mt) (tokVal dd)) :
    (mkParsed yt mt dt).isSome = true := by
  rw [mkParsed_isSome]
  rcases hshape with ⟨rfl, hlen, hdig⟩ | ⟨c, rfl, rfl, hcd⟩
  · exact ⟨dt, dayDigits_digits hlen hdig, ha, hb, hv⟩
  · exact ⟨[c], dayDigits_space hcd, ha, hb, hv⟩

theorem parseChars_shape1 (a b c d m1 d1 : Char) :
    parseChars [a, b, c, d, '-', m1, '-', d1] = mkParsed [a, b, c, d] [m1] [d1] := by
  simp [parseChars]

theorem parseChars_shape2a (a b c d m1 u v : Char) :
    parseChars [a, b, c, d, '-', m1, '-', u, v] =
      mkParsed [a, b, c, d] [m1] [u, v] := by
  simp [parseChars]

theorem parseChars_shape2b (a b c d m1 m2 u : Char) (hm2 : m2 ≠ '-') :
    parseChars [a, b, c, d, '-', m1, m2, '-', u] =
      mkParsed [a, b, c, d] [m1, m2] [u] := by
  simp [parseChars, hm2]

theorem parseChars_shape3 (a b c d m1 m2 u v : Char) :
    parseChars [a, b, c, d, '-', m1, m2, '-', u, v] =
      mkParsed [a, b, c, d] [m1, m2] [u, v] := by
  simp [parseChars]

/-- The strptime match succeeds exactly on the hyphen-separated
four-digit-year / one-or-two-digit-month token decompositions whose day
token is one or two digits or a space-padded digit, denoting a supported
calendar date. -/
theorem parseChars_isSome_iff (cs : List Char) :
    (parseChars cs).isSome = true ↔
      ∃ yt mt dt dd : List Char,
        cs = yt ++ '-' :: (mt ++ '-' :: dt) ∧
        yt.length = 4 ∧
        (mt.length = 1 ∨ mt.length = 2) ∧
        allDigits yt = true ∧ allDigits mt = true ∧
        ((dt = dd ∧ (dd.length = 1 ∨ dd.length = 2) ∧ allDigits dd = true) ∨
          (∃ c, dt = [' ', c] ∧ dd = [c] ∧ c.isDigit = true)) ∧
        validDate (tokVal yt) (tokVal mt) (tokVal dd) := by
  constructor
  · intro h
    unfold parseChars at h
    split at h
    · rename_i y1 y2 y3 y4 h1c m1 h2c d1
      split_ifs at h with hc
      · obtain ⟨hc1, hc2⟩ := hc
        subst hc1
        subst hc2
        obtain ⟨ha, hb, dd, hshape, hv⟩ := mkParsed_isSome_inv h (Or.inl rfl)
        exact ⟨[y1, y2, y3, y4], [m1], [d1], dd, rfl, rfl, Or.inl rfl,
          ha, hb, hshape, hv⟩
      · exact absurd h (by simp)
    · rename_i y1 y2 y3 y4 h1c c5 c6 c7 c8
      split_ifs at h with hh1 hc6 hc7
      · subst hh1
        subst hc6
        obtain ⟨ha, hb, dd, hshape, hv⟩ := mkParsed_isSome_inv h (Or.inr rfl)
        exact ⟨[y1, y2, y3, y4], [c5], [c7, c8], dd, rfl, rfl, Or.inl rfl,
          ha, hb, hshape, hv⟩
      · subst hh1
        subst hc7
        obtain ⟨ha, hb, dd, hshape, hv⟩ := mkParsed_isSome_inv h (Or.inl rfl)
        exact ⟨[y1, y2, y3, y4], [c5, c6], [c8], dd, rfl, rfl, Or.inr rfl,
          ha, hb, hshape, hv⟩
      · exact absurd h (by simp)
      · exact absurd h (by simp)
    · rename_i y1 y2 y3 y4 h1c m1 m2 h2c d1 d2
      split_ifs at h with hc
      · obtain ⟨hc1, hc2⟩ := hc
        subst hc1
        subst hc2
        obtain ⟨ha, hb, dd, hshape, hv⟩ := mkParsed_isSome_inv h (Or.inr rfl)
        exact ⟨[y1, y2, y3, y4], [m1, m2], [d1, d2], dd, rfl, rfl, Or.inr rfl,
          ha, hb, hshape, hv⟩
      · exact absurd h (by simp)
    · exact absurd h (by simp)
  · rintro ⟨yt, mt, dt, dd, hcs, hy4, hm, hay, ham, hshape, hval⟩
    obtain ⟨y1, y2, y3, y4, rfl⟩ := length_eq_four hy4
    subst hcs
    rcases hshape with ⟨rfl, hlen, hdig⟩ | ⟨c, rfl, rfl, hcd⟩
    · rcases hm with hm1 | hm2
      · obtain ⟨m1, rfl⟩ := List.length_eq_one.mp hm1
        rcases hlen with hl1 | hl2
        · obtain ⟨d1, rfl⟩ := List.length_eq_one.mp hl1
          show (parseChars [y1, y2, y3, y4, '-', m1, '-', d1]).isSome = true
          rw [parseChars_shape1]
          exact mkParsed_isSome_of hay ham (Or.inl ⟨rfl, Or.inl rfl, hdig⟩) hval
        · obtain ⟨u, v, rfl⟩ := List.length_eq_two.mp hl2
          show (parseChars [y1, y2, y3, y4, '-', m1, '-', u, v]).isSome = true
          rw [parseChars_shape2a]
          exact mkParsed_isSome_of hay ham (Or.inl ⟨rfl, Or.inr rfl, hdig⟩) hval
      · obtain ⟨m1, m2, rfl⟩ := List.length_eq_two.mp hm2
        have hm2digit : m2.isDigit = true := by
          simp only [allDigits, List.all_cons, List.all_nil, Bool.and_eq_true] at ham
          exact ham.2.1
        rcases hlen with hl1 | hl2
        · obtain ⟨d1, rfl⟩ := List.length_eq_one.mp hl1
          show (parseChars [y1, y2, y3, y4, '-', m1, m2, '-', d1]).isSome = true
          rw [parseChars_shape2b y1 y2 y3 y4 m1 m2 d1 (ne_hyphen_of_isDigit hm2digit)]
          exact mkParsed_isSome_of hay ham (Or.inl ⟨rfl, Or.inl rfl, hdig⟩) hval
        · obtain ⟨u, v, rfl⟩ := List.length_eq_two.mp hl2
          show (parseChars [y1, y2, y3, y4, '-', m1, m2, '-', u, v]).isSome = true
          rw [parseChars_shape3]
          exact mkParsed_isSome_of hay ham (Or.inl ⟨rfl, Or.inr rfl, hdig⟩) hval
    · rcases hm with hm1 | hm2
      · obtain ⟨m1, rfl⟩ := List.length_eq_one.mp hm1
        show (parseChars [y1, y2, y3, y4, '-', m1, '-', ' ', c]).isSome = true
        rw [parseChars_shape2a]
        exact mkParsed_isSome_of hay ham (Or.inr ⟨c, rfl, rfl, hcd⟩) hval
      · obtain ⟨m1, m2, rfl⟩ := List.length_eq_two.mp hm2
        show (parseChars [y1, y2, y3, y4, '-', m1, m2, '-', ' ', c]).isSome = true
        rw [parseChars_shape3]
        exact mkParsed_isSome_of hay ham (Or.inr ⟨c, rfl, rfl, hcd⟩) hval

theorem predict_precip_of_none (st : ServerState) (date : String)
    (h : st.precip_reg = none) :
    predict_precipitation_fall st date =
      Response.httpError 500
        ("Precipitation model not loaded. " ++ pyOrEmpty st.load_error_msg) := by
  simp only [predict_precipitation_fall, h]

/-! ## Claims -/

/-- C4: at startup, if either of the two model artifact paths does not
reference an existing file, both artifacts are left unset and the single
shared startup error message records the first failure encountered (the
classifier message if its file is missing, otherwise the regressor message); if both
files exist, both artifacts are set and no error message is recorded. -/
theorem claim_C4 (rainAt precipAt : Bool) (rainPath precipPath : String)
    (rainM precipM : Model) :
    ((rainAt = false ∨ precipAt = false) →
      (startup rainAt precipAt rainPath precipPath rainM precipM).rain_clf = none ∧
      (startup rainAt precipAt rainPath precipPath rainM precipM).precip_reg = none ∧
      (startup rainAt precipAt rainPath precipPath rainM precipM).load_error_msg =
        some (if rainAt then "Model file not found: " ++ precipPath
          else "Model file not found: " ++ rainPath)) ∧
    (rainAt = true → precipAt = true →
      (startup rainAt precipAt rainPath precipPath rainM precipM).rain_clf = some rainM ∧
      (startup rainAt precipAt rainPath precipPath rainM precipM).precip_reg = some precipM ∧
      (startup rainAt precipAt rainPath precipPath rainM precipM).load_error_msg = none) := by
  cases rainAt <;> cases precipAt <;> simp [startup, _load_model]

theorem claim_C4_witness :
    ((startup false true "r.joblib" "p.joblib" (constModel 1) (constModel 1)).rain_clf
        = none ∧
      (startup false true "r.joblib" "p.joblib" (constModel 1) (constModel 1)).precip_reg
        = none ∧
      (startup false true "r.joblib" "p.joblib" (constModel 1)
          (constModel 1)).load_error_msg
        = some "Model file not found: r.joblib") ∧
    (startup true true "r.joblib" "p.joblib" (constModel 1) (constModel 1)).load_error_msg
      = none := by
  constructor
  · obtain ⟨h1, h2, h3⟩ :=
      (claim_C4 false true "r.joblib" "p.joblib" (constModel 1) (constModel 1)).1
        (Or.inl rfl)
    exact ⟨h1, h2, by rw [h3]; decide⟩
  · exact ((claim_C4 true true "r.joblib" "p.joblib" (constModel 1)
      (constModel 1)).2 rfl rfl).2.2

/-- C5: whenever the classifier artifact is unset, `/predict/rain/` answers
with the HTTP 500 model-unavailable error for every date string; and the
response of each handler depends only on its own artifact variable (and
the shared startup message), never on the artifact of the other endpoint. -/
theorem claim_C5 :
    (∀ (st : ServerState) (date : String), st.rain_clf = none →
      predict_rain st date =
        Response.httpError 500
          ("Rain model not loaded. " ++ pyOrEmpty st.load_error_msg)) ∧
    (∀ (st₁ st₂ : ServerState) (date : String),
      st₁.precip_reg = st₂.precip_reg → st₁.load_error_msg = st₂.load_error_msg →
      predict_precipitation_fall st₁ date = predict_precipitation_fall st₂ date) ∧
    (∀ (st₁ st₂ : ServerState) (date : String),
      st₁.rain_clf = st₂.rain_clf → st₁.load_error_msg = st₂.load_error_msg →
      predict_rain st₁ date = predict_rain st₂ date) := by
  refine ⟨fun st date h => predict_rain_of_none st date h, ?_, ?_⟩
  · intro st₁ st₂ date h1 h2
    obtain ⟨r1, p1, l1⟩ := st₁
    obtain ⟨r2, p2, l2⟩ := st₂
    dsimp only at h1 h2
    subst h1; subst h2
    rfl
  · intro st₁ st₂ date h1 h2
    obtain ⟨r1, p1, l1⟩ := st₁
    obtain ⟨r2, p2, l2⟩ := st₂
    dsimp only at h1 h2
    subst h1; subst h2
    rfl

theorem claim_C5_witness :
    predict_rain ⟨none, some (constModel 1), some "boom"⟩ "2023-01-01" =
        Response.httpError 500 "Rain model not loaded. boom" ∧
    predict_precipitation_fall ⟨none, some (constModel 1), none⟩ "2023-01-01" =
      predict_precipitation_fall ⟨some (constModel 1), some (constModel 1), none⟩
        "2023-01-01" := by
  constructor
  · rw [claim_C5.1 ⟨none, some (constModel 1), some "boom"⟩ "2023-01-01" rfl]
    decide
  · exact claim_C5.2.1 ⟨none, some (constModel 1), none⟩
      ⟨some (constModel 1), some (constModel 1), none⟩ "2023-01-01" rfl rfl

/-- C6: `/health/` answers with status 200 in every startup state; in a
fully-loaded state the body is the fixed ready message, and after a load
failure the body embeds the recorded startup error, so the two bodies
always differ. -/
theorem claim_C6 :
    (∀ st : ServerState, (health_check st).1 = 200) ∧
    (∀ (rainAt precipAt : Bool) (rainPath precipPath : String) (rainM precipM : Model),
      ((startup rainAt precipAt rainPath precipPath rainM precipM).load_error_msg = none →
        (health_check (startup rainAt precipAt rainPath precipPath rainM precipM)).2 =
          "API is ready. Models loaded.") ∧
      (∀ e,
        (startup rainAt precipAt rainPath precipPath rainM precipM).load_error_msg
            = some e →
        (health_check (startup rainAt precipAt rainPath precipPath rainM precipM)).2 =
            "Startup warning: " ++ e ∧
          (health_check (startup rainAt precipAt rainPath precipPath rainM precipM)).2 ≠
            "API is ready. Models loaded.")) := by
  constructor
  · intro st
    unfold health_check
    split <;> rfl
  · intro rainAt precipAt rainPath precipPath rainM precipM
    constructor
    · intro hm
      exact congrArg Prod.snd (health_check_of_none _ hm)
    · intro e hm
      have he : e ≠ "" := by
        rcases startup_msg_form rainAt precipAt rainPath precipPath rainM precipM e hm
          with h | h <;> (rw [h]; exact modelMsg_ne_empty _)
      have hb := congrArg Prod.snd (health_check_of_msg _ e hm he)
      refine ⟨hb, ?_⟩
      rw [hb]
      rcases startup_msg_form rainAt precipAt rainPath precipPath rainM precipM e hm
        with h | h <;> exact warning_ne_ready e

theorem claim_C6_witness :
    (health_check (startup false true "r.joblib" "p.joblib" (constModel 1)
      (constModel 1))).1 = 200 ∧
    (health_check (startup false true "r.joblib" "p.joblib" (constModel 1)
        (constModel 1))).2 ≠ "API is ready. Models loaded." := by
  refine ⟨claim_C6.1 _, ?_⟩
  exact ((claim_C6.2 false true "r.joblib" "p.joblib" (constModel 1) (constModel 1)).2
    ("Model file not found: " ++ "r.joblib") (by decide)).2

/-- C10: in each prediction handler the model-availability check precedes
date parsing: with the artifact of the handler unset, even a malformed date
string receives the HTTP 500 model-unavailable error and never the HTTP
400 invalid-date error. -/
theorem claim_C10 :
    (∀ (st : ServerState) (date : String), st.rain_clf = none → parse_date date = none →
      predict_rain st date =
        Response.httpError 500
          ("Rain model not loaded. " ++ pyOrEmpty st.load_error_msg) ∧
      ∀ detail, predict_rain st date ≠ Response.httpError 400 detail) ∧
    (∀ (st : ServerState) (date : String), st.precip_reg = none →
      parse_date date = none →
      predict_precipitation_fall st date =
        Response.httpError 500
          ("Precipitation model not loaded. " ++ pyOrEmpty st.load_error_msg) ∧
      ∀ detail, predict_precipitation_fall st date ≠ Response.httpError 400 detail) := by
  constructor
  · intro st date hm _hp
    have h := predict_rain_of_none st date hm
    refine ⟨h, fun detail hc => ?_⟩
    rw [h] at hc
    injection hc with h5 _
    exact absurd h5 (by decide)
  · intro st date hm _hp
    have h := predict_precip_of_none st date hm
    refine ⟨h, fun detail hc => ?_⟩
    rw [h] at hc
    injection hc with h5 _
    exact absurd h5 (by decide)

theorem claim_C10_witness :
    parse_date "not-a-date" = none ∧
    predict_rain ⟨none, none, some "boom"⟩ "not-a-date" =
      Response.httpError 500 "Rain model not loaded. boom" := by
  refine ⟨by decide, ?_⟩
  have h := (claim_C10.1 ⟨none, none, some "boom"⟩ "not-a-date" rfl (by decide)).1
  rw [h]
  decide

/-- C1, counterexample to the claim as stated: `"9999-12-25"` parses as a
valid `YYYY-MM-DD` date and the classifier artifact is loaded with an
always-succeeding `predict`, yet the handler does not return the claimed
body — `d0 + timedelta(days=7)` overflows the Python `datetime` range and
the `OverflowError` escapes the handler. -/
theorem claim_C1_counterexample :
    readyState.rain_clf = some (constModel 1) ∧
    parse_date "9999-12-25" = some ⟨⟨9999, 12, 25⟩, 0⟩ ∧
    predict_rain readyState "9999-12-25" = Response.unhandled overflowMsg :=
  ⟨rfl, by decide, by decide⟩

/-- C1 (amended): for every date string that parses as a valid
`YYYY-MM-DD` date, *whose 7-day successor is still within the supported
range (at most 9999-12-31)*, with the classifier artifact loaded and its
predict call succeeding, `/predict/rain/` returns a body whose
`input_date` is the canonical zero-padded rendering of the parsed base
date and whose `prediction.date` is the base date plus exactly 7 calendar
days, formatted `YYYY-MM-DD`. -/
theorem claim_C1 (st : ServerState) (clf : Model) (date : String)
    (d0 d7 : PyDateTime) (q : ℚ)
    (hm : st.rain_clf = some clf)
    (hp : parse_date date = some d0)
    (h7 : addDays d0 7 = some d7)
    (hq : clf.predict (build_features_for_date d0) = Except.ok q) :
    predict_rain st date =
      Response.ok ⟨strftimeYMD d0, strftimeYMD d7, decide (q ≠ 0)⟩ := by
  simp only [predict_rain, hm, hp, h7, hq]

theorem claim_C1_witness :
    predict_rain readyState "2023-01-01" =
      Response.ok ⟨"2023-01-01", "2023-01-08", true⟩ := by
  have h := claim_C1 readyState (constModel 1) "2023-01-01" ⟨⟨2023, 1, 1⟩, 0⟩
    ⟨⟨2023, 1, 8⟩, 0⟩ 1 rfl (by decide) (by decide) rfl
  rw [h]
  decide

/-- C2: every successful (HTTP 200) response of
`/predict/precipitation/fall/` for a date string parsing to base date `d0`
carries `start_date = d0 + 1 day` and `end_date = d0 + 3 days`, both
formatted `YYYY-MM-DD`, together with the canonical rendering of the base
date. -/
theorem claim_C2 (st : ServerState) (date : String) (d0 : PyDateTime)
    (body : PrecipBody)
    (hp : parse_date date = some d0)
    (hb : predict_precipitation_fall st date = Response.ok body) :
    ∃ s1 e3, addDays d0 1 = some s1 ∧ addDays d0 3 = some e3 ∧
      body.input_date = strftimeYMD d0 ∧
      body.start_date = strftimeYMD s1 ∧
      body.end_date = strftimeYMD e3 := by
  unfold predict_precipitation_fall at hb
  split at hb
  · exact Response.noConfusion hb
  · simp only [hp] at hb
    split at hb
    · rename_i s1 e3 heq1 heq3
      split at hb
      · exact Response.noConfusion hb
      · rename_i y _hy
        injection hb with hbody
        exact ⟨s1, e3, heq1, heq3, by rw [← hbody], by rw [← hbody], by rw [← hbody]⟩
    · exact Response.noConfusion hb

theorem claim_C2_witness :
    predict_precipitation_fall readyState "2023-01-01" =
        Response.ok ⟨"2023-01-01", "2023-01-02", "2023-01-04", "1.0"⟩ ∧
    ∃ s1 e3, addDays ⟨⟨2023, 1, 1⟩, 0⟩ 1 = some s1 ∧
      addDays ⟨⟨2023, 1, 1⟩, 0⟩ 3 = some e3 ∧
      (⟨"2023-01-01", "2023-01-02", "2023-01-04", "1.0"⟩ : PrecipBody).input_date =
        strftimeYMD ⟨⟨2023, 1, 1⟩, 0⟩ ∧
      (⟨"2023-01-01", "2023-01-02", "2023-01-04", "1.0"⟩ : PrecipBody).start_date =
        strftimeYMD s1 ∧
      (⟨"2023-01-01", "2023-01-02", "2023-01-04", "1.0"⟩ : PrecipBody).end_date =
        strftimeYMD e3 := by
  have hb : predict_precipitation_fall readyState "2023-01-01" =
      Response.ok ⟨"2023-01-01", "2023-01-02", "2023-01-04", "1.0"⟩ := by decide
  exact ⟨hb, claim_C2 readyState "2023-01-01" ⟨⟨2023, 1, 1⟩, 0⟩ _ (by decide) hb⟩

/-- C7: the precipitation handler renders the single output value of the regressor with exactly one digit after the decimal point via `formatFixed1`
(the `f"{y_hat:.1f}"` formatting of the exact value); in particular a
regressor output of 28.16 yields `precipitation_fall = "28.2"`. -/
theorem claim_C7 :
    (∀ (st : ServerState) (reg : Model) (date : String) (d0 s1 e3 : PyDateTime) (q : ℚ),
      st.precip_reg = some reg → parse_date date = some d0 →
      addDays d0 1 = some s1 → addDays d0 3 = some e3 →
      reg.predict (build_features_for_date d0) = Except.ok q →
      predict_precipitation_fall st date =
        Response.ok ⟨strftimeYMD d0, strftimeYMD s1, strftimeYMD e3, formatFixed1 q⟩) ∧
    formatFixed1 (mkRat 2816 100) = "28.2" ∧
    predict_precipitation_fall
        ⟨some (constModel 1), some (constModel (mkRat 2816 100)), none⟩ "2023-01-01" =
      Response.ok ⟨"2023-01-01", "2023-01-02", "2023-01-04", "28.2"⟩ := by
  refine ⟨?_, by decide, by decide⟩
  intro st reg date d0 s1 e3 q hm hp h1 h3 hq
  simp only [predict_precipitation_fall, hm, hp, h1, h3, hq]

theorem claim_C7_witness :
    predict_precipitation_fall
        ⟨none, some (constModel (mkRat 2816 100)), some "x"⟩ "2024-02-28" =
      Response.ok ⟨"2024-02-28", "2024-02-29", "2024-03-02", "28.2"⟩ := by
  have h := claim_C7.1 ⟨none, some (constModel (mkRat 2816 100)), some "x"⟩
    (constModel (mkRat 2816 100)) "2024-02-28" ⟨⟨2024, 2, 28⟩, 0⟩ ⟨⟨2024, 2, 29⟩, 0⟩
    ⟨⟨2024, 3, 2⟩, 0⟩ (mkRat 2816 100) rfl (by decide) (by decide) (by decide) rfl
  rw [h]
  decide

/-- C8, counterexample to the claim as stated: on `"9999-12-31"` with a
loaded, always-succeeding classifier, an exception that is *not* an
inference failure (the `OverflowError` from `d0 + timedelta(days=7)`)
escapes `/predict/rain/` as an unhandled failure. -/
theorem claim_C8_counterexample :
    parse_date "9999-12-31" = some ⟨⟨9999, 12, 31⟩, 0⟩ ∧
    predict_rain readyState "9999-12-31" = Response.unhandled overflowMsg :=
  ⟨by decide, by decide⟩

/-- C8 (amended): if the prediction call of the model raises, each handler
returns an HTTP 500 whose detail carries the exception message verbatim
(after the fixed `Inference error` prefix); and the *only* exception that
escapes either handler unhandled is the date-arithmetic overflow that
occurs when a shifted date would pass 9999-12-31. -/
theorem claim_C8 :
    (∀ (st : ServerState) (clf : Model) (date : String) (d0 d7 : PyDateTime)
      (e : String),
      st.rain_clf = some clf → parse_date date = some d0 → addDays d0 7 = some d7 →
      clf.predict (build_features_for_date d0) = Except.error e →
      predict_rain st date =
        Response.httpError 500 ("Inference error (rain): " ++ e)) ∧
    (∀ (st : ServerState) (reg : Model) (date : String) (d0 s1 e3 : PyDateTime)
      (e : String),
      st.precip_reg = some reg → parse_date date = some d0 →
      addDays d0 1 = some s1 → addDays d0 3 = some e3 →
      reg.predict (build_features_for_date d0) = Except.error e →
      predict_precipitation_fall st date =
        Response.httpError 500 ("Inference error (precipitation): " ++ e)) ∧
    (∀ (st : ServerState) (date : String) (msg : String),
      predict_rain st date = Response.unhandled msg →
      ∃ d0, parse_date date = some d0 ∧ addDays d0 7 = none) ∧
    (∀ (st : ServerState) (date : String) (msg : String),
      predict_precipitation_fall st date = Response.unhandled msg →
      ∃ d0, parse_date date = some d0 ∧
        (addDays d0 1 = none ∨ addDays d0 3 = none)) := by
  refine ⟨?_, ?_, ?_, ?_⟩
  · intro st clf date d0 d7 e hm hp h7 he
    simp only [predict_rain, hm, hp, h7, he]
  · intro st reg date d0 s1 e3 e hm hp h1 h3 he
    simp only [predict_precipitation_fall, hm, hp, h1, h3, he]
  · intro st date msg h
    unfold predict_rain at h
    split at h
    · exact Response.noConfusion h
    · split at h
      · exact Response.noConfusion h
      · rename_i d0 heqp
        split at h
        · rename_i heq7
          exact ⟨d0, heqp, heq7⟩
        · split at h
          · exact Response.noConfusion h
          · exact Response.noConfusion h
  · intro st date msg h
    unfold predict_precipitation_fall at h
    split at h
    · exact Response.noConfusion h
    · split at h
      · exact Response.noConfusion h
      · rename_i d0 heqp
        split at h
        · split at h
          · exact Response.noConfusion h
          · exact Response.noConfusion h
        · rename_i hnone
          rcases h1eq : addDays d0 1 with _ | s1
          · exact ⟨d0, heqp, Or.inl h1eq⟩
          rcases h3eq : addDays d0 3 with _ | e3
          · exact ⟨d0, heqp, Or.inr h3eq⟩
          exact (hnone s1 e3 h1eq h3eq).elim

theorem claim_C8_witness :
    predict_rain readyState "9999-12-30" = Response.unhandled overflowMsg ∧
    ∃ d0, parse_date "9999-12-30" = some d0 ∧ addDays d0 7 = none := by
  have h : predict_rain readyState "9999-12-30" = Response.unhandled overflowMsg := by
    decide
  exact ⟨h, claim_C8.2.2.1 readyState "9999-12-30" overflowMsg h⟩

/-- C9: the feature frame built for a base date has exactly one column and
one row, its single value is the base date normalized to midnight; and
both prediction handlers observe their model only through its value on the
frame built from the *base* date — two loaded states whose models agree on
that single frame produce identical responses. -/
theorem claim_C9 :
    (∀ d : PyDateTime,
      build_features_for_date d = [("date", [⟨d.date, 0⟩])] ∧
      (build_features_for_date d).length = 1 ∧
      ∀ col ∈ build_features_for_date d, col.2.length = 1 ∧
        ∀ v ∈ col.2, v.date = d.date ∧ v.secondsOfDay = 0) ∧
    (∀ (st₁ st₂ : ServerState) (c₁ c₂ : Model) (date : String) (d0 : PyDateTime),
      st₁.rain_clf = some c₁ → st₂.rain_clf = some c₂ →
      parse_date date = some d0 →
      c₁.predict (build_features_for_date d0) = c₂.predict (build_features_for_date d0) →
      predict_rain st₁ date = predict_rain st₂ date) ∧
    (∀ (st₁ st₂ : ServerState) (r₁ r₂ : Model) (date : String) (d0 : PyDateTime),
      st₁.precip_reg = some r₁ → st₂.precip_reg = some r₂ →
      parse_date date = some d0 →
      r₁.predict (build_features_for_date d0) = r₂.predict (build_features_for_date d0) →
      predict_precipitation_fall st₁ date = predict_precipitation_fall st₂ date) := by
  refine ⟨?_, ?_, ?_⟩
  · intro d
    refine ⟨rfl, rfl, ?_⟩
    intro col hcol
    simp only [build_features_for_date, List.mem_singleton] at hcol
    subst hcol
    refine ⟨rfl, ?_⟩
    intro v hv
    simp only [List.mem_singleton] at hv
    subst hv
    exact ⟨rfl, rfl⟩
  · intro st₁ st₂ c₁ c₂ date d0 h1 h2 hp hpred
    simp only [predict_rain, h1, h2, hp]
    cases h7 : addDays d0 7 with
    | none => rfl
    | some d7 =>
      rw [hpred]
  · intro st₁ st₂ r₁ r₂ date d0 h1 h2 hp hpred
    simp only [predict_precipitation_fall, h1, h2, hp]
    cases ha : addDays d0 1 with
    | none => rfl
    | some s1 =>
      cases hb : addDays d0 3 with
      | none => rfl
      | some e3 =>
        rw [hpred]

/-- C3, counterexample to the claim as stated: `"2023-1-1"` does not match
the zero-padded `YYYY-MM-DD` pattern, yet `datetime.strptime` accepts it
(the CPython `%m`/`%d` fields match one- or two-digit values), so the parser
accepts strictly more than the claimed set. -/
theorem claim_C3_counterexample :
    parse_date "2023-1-1" = some ⟨⟨2023, 1, 1⟩, 0⟩ ∧
    specExactFormat "2023-1-1" = false := by decide

/-- C3 (amended): restricted to input strings over the ASCII alphabet (on
which the embedded parser is exact; beyond ASCII, CPython additionally
matches Unicode decimal digits where its pattern uses a digit class), the
date parser accepts exactly the hyphen-separated strings with a four-digit
year, a one- or two-digit (optionally zero-padded) month, and a day that
is one or two digits (optionally zero-padded) or a space-padded digit,
denoting a real calendar date of the supported range; every other such
input makes both prediction endpoints (with their artifact loaded) answer
the HTTP 400 invalid-date-format error. -/
theorem claim_C3 :
    (∀ s : String, s.data.all isAsciiChar = true →
      ((parse_date s).isSome = true ↔ lenientAccept s)) ∧
    (∀ (st : ServerState) (clf : Model) (date : String),
      date.data.all isAsciiChar = true →
      st.rain_clf = some clf → parse_date date = none →
      predict_rain st date = Response.httpError 400 invalidDateDetail) ∧
    (∀ (st : ServerState) (reg : Model) (date : String),
      date.data.all isAsciiChar = true →
      st.precip_reg = some reg → parse_date date = none →
      predict_precipitation_fall st date =
        Response.httpError 400 invalidDateDetail) := by
  refine ⟨?_, ?_, ?_⟩
  · intro s _
    exact parseChars_isSome_iff s.data
  · intro st clf date _ hm hp
    simp only [predict_rain, hm, hp]
  · intro st reg date _ hm hp
    simp only [predict_precipitation_fall, hm, hp]

theorem claim_C3_witness :
    lenientAccept "2023-1-1" ∧
    lenientAccept "2023-01- 1" ∧
    predict_rain ⟨some (constModel 1), none, none⟩ "2023/01/01" =
      Response.httpError 400 invalidDateDetail := by
  refine ⟨?_, ?_, ?_⟩
  · exact (claim_C3.1 "2023-1-1" (by decide)).mp (by decide)
  · exact (claim_C3.1 "2023-01- 1" (by decide)).mp (by decide)
  · exact claim_C3.2.1 ⟨some (constModel 1), none, none⟩ (constModel 1) "2023/01/01"
      (by decide) rfl (by decide)

theorem claim_C9_witness :
    predict_rain ⟨some (constModel 2), none, some "x"⟩ "2023-01-01" =
      predict_rain ⟨some (constModel 2), some (constModel 1), none⟩ "2023-01-01" :=
  claim_C9.2.1 ⟨some (constModel 2), none, some "x"⟩
    ⟨some (constModel 2), some (constModel 1), none⟩ (constModel 2) (constModel 2)
    "2023-01-01" ⟨⟨2023, 1, 1⟩, 0⟩ rfl rfl (by decide) rfl

/-! ## Concrete evaluation checks

Named unit checks evaluating the embedded operations at the inputs the
spec discusses (all by kernel computation). -/

theorem eval_parse_padded : parse_date "2023-01-01" = some ⟨⟨2023, 1, 1⟩, 0⟩ := by
  decide

theorem eval_parse_unpadded : parse_date "2023-1-1" = some ⟨⟨2023, 1, 1⟩, 0⟩ := by
  decide

theorem eval_parse_bad_values : parse_date "2023-13-40" = none := by decide

theorem eval_parse_slashes : parse_date "2023/01/01" = none := by decide

theorem eval_parse_reversed : parse_date "01-01-2023" = none := by decide

theorem eval_parse_nonleap : parse_date "2023-02-29" = none := by decide

theorem eval_parse_leap : parse_date "2024-02-29" = some ⟨⟨2024, 2, 29⟩, 0⟩ := by
  decide

theorem eval_parse_year_zero : parse_date "0000-01-01" = none := by decide

theorem eval_parse_space_day : parse_date "2023-01- 1" = some ⟨⟨2023, 1, 1⟩, 0⟩ := by
  decide

theorem eval_parse_space_day_short :
    parse_date "2023-1- 1" = some ⟨⟨2023, 1, 1⟩, 0⟩ := by decide

theorem eval_parse_space_month : parse_date "2023- 1-01" = none := by decide

theorem eval_parse_space_zero_day : parse_date "2023-01- 0" = none := by decide

theorem eval_parse_space_year : parse_date " 023-01-01" = none := by decide

theorem eval_addDays_seven :
    addDays ⟨⟨2023, 1, 1⟩, 0⟩ 7 = some ⟨⟨2023, 1, 8⟩, 0⟩ := by decide

theorem eval_addDays_overflow : addDays ⟨⟨9999, 12, 25⟩, 0⟩ 7 = none := by decide

theorem eval_strftime : strftimeYMD ⟨⟨2023, 1, 8⟩, 0⟩ = "2023-01-08" := by decide

theorem eval_format_spec_scenario : formatFixed1 (mkRat 2816 100) = "28.2" := by
  decide

theorem eval_format_whole : formatFixed1 (mkRat 1 1) = "1.0" := by decide

theorem eval_format_half_even : formatFixed1 (mkRat 25 100) = "0.2" := by decide

theorem eval_format_negative_zero : formatFixed1 (mkRat (-4) 100) = "-0.0" := by
  decide

end AmlaApi
